import Mathlib

/-!
Verification development for the thesis-recom event recommender.

The definitions below are a shallow embedding of the scoring and
diversification core of the repository:
  * `api/recommender.py` — similarity, context, artist-boost, language and
    composite scoring, plus the date-window eligibility predicate;
  * `api/main.py` — the `interleave_random` diversifier and the random-pool
    selection used by the `/recommendations` endpoint.

Python floats are modelled as rationals (`ℚ`), Python strings as Lean
`String` with explicit ASCII `lower`/`strip` helpers, and Python's
seeded Mersenne-Twister shuffle as an arbitrary deterministic function
`String → List α → List α` of the seed key.
-/

/-- Python `str.lower()` (ASCII case folding, which covers every string the
repository compares case-insensitively). -/
def pyLower (s : String) : String := String.mk (s.data.map Char.toLower)

/-- Whitespace recognised by Python `str.strip()`. -/
def isPySpace (c : Char) : Bool := c = ' ' ∨ c = '\t' ∨ c = '\n' ∨ c = '\r'

/-- Python `str.strip()`: drop leading and trailing whitespace. -/
def pyStrip (s : String) : String :=
  String.mk (((s.data.dropWhile isPySpace).reverse.dropWhile isPySpace).reverse)

/-- The `seen`-set loop of `normalize_list` (recommender.py lines 42-49):
keep the first occurrence of each case-insensitive key. -/
def normalizeDedup (seen : List String) : List String → List String
  | [] => []
  | v :: rest =>
    if pyLower v ∈ seen then normalizeDedup seen rest
    else v :: normalizeDedup (pyLower v :: seen) rest

/-- `normalize_list` (recommender.py lines 31-50), for list input: trim each
entry, drop blanks, deduplicate case-insensitively preserving first-seen
originals. -/
def normalize_list (values : List String) : List String :=
  normalizeDedup [] ((values.map pyStrip).filter (fun s => s ≠ ""))

/-- The set comprehension `{t.lower() for t in l if t}` used by
`jaccard_similarity` and `compute_artist_boost`. -/
def lowerSetNZ (l : List String) : Finset String :=
  ((l.filter (fun t => t ≠ "")).map pyLower).toFinset

/-- The set comprehension `{t.lower() for t in l}` (no blank filter), used by
`infer_user_language_pref` and `matched_tags_and_artists`. -/
def lowerSet (l : List String) : Finset String := (l.map pyLower).toFinset

/-- `jaccard_similarity` (recommender.py lines 53-63). -/
def jaccard_similarity (user_tags event_tags : List String) : ℚ :=
  if user_tags = [] ∨ event_tags = [] then 0
  else if lowerSetNZ user_tags = ∅ ∨ lowerSetNZ event_tags = ∅ then 0
  else if lowerSetNZ user_tags ∪ lowerSetNZ event_tags ≠ ∅ then
    ((lowerSetNZ user_tags ∩ lowerSetNZ event_tags).card : ℚ)
      / ((lowerSetNZ user_tags ∪ lowerSetNZ event_tags).card : ℚ)
  else 0

/-- `CITY_DISTANCE_SCORES` (recommender.py lines 7-12), as a partial map from
user-city key to a row, itself a partial map from event-city key to a score. -/
def CITY_DISTANCE_SCORES (uc : String) : Option (String → Option ℚ) :=
  if uc = "nicosia" then
    some (fun ec =>
      if ec = "nicosia" then some 1 else if ec = "larnaca" then some (7/10)
      else if ec = "limassol" then some (6/10) else if ec = "paphos" then some (4/10)
      else Option.none)
  else if uc = "larnaca" then
    some (fun ec =>
      if ec = "larnaca" then some 1 else if ec = "nicosia" then some (7/10)
      else if ec = "limassol" then some (7/10) else if ec = "paphos" then some (5/10)
      else Option.none)
  else if uc = "limassol" then
    some (fun ec =>
      if ec = "limassol" then some 1 else if ec = "paphos" then some (8/10)
      else if ec = "larnaca" then some (6/10) else if ec = "nicosia" then some (4/10)
      else Option.none)
  else if uc = "paphos" then
    some (fun ec =>
      if ec = "paphos" then some 1 else if ec = "limassol" then some (8/10)
      else if ec = "larnaca" then some (5/10) else if ec = "nicosia" then some (3/10)
      else Option.none)
  else Option.none

/-- `compute_city_score` (recommender.py lines 66-75). -/
def compute_city_score (event_city user_city : String) : ℚ :=
  if event_city = "" ∨ user_city = "" then 3/10
  else
    match CITY_DISTANCE_SCORES (pyLower (pyStrip user_city)) with
    | Option.none => 3/10
    | some row =>
      match row (pyLower (pyStrip event_city)) with
      | some v => v
      | Option.none => 3/10

/-- `compute_context_score` (recommender.py lines 78-85): average of city
proximity and the constant date score 1.0. -/
def compute_context_score (event_city user_city : String) : ℚ :=
  (compute_city_score event_city user_city + 1) / 2

/-- `compute_artist_boost` (recommender.py lines 88-104). -/
def compute_artist_boost (user_artists event_artists : List String)
    (max_artist_boost : ℚ) : ℚ :=
  if user_artists = [] ∨ event_artists = [] then 0
  else if lowerSetNZ user_artists = ∅ ∨ lowerSetNZ event_artists = ∅ then 0
  else if (lowerSetNZ user_artists ∩ lowerSetNZ event_artists).card = 0 then 0
  else
    min (max_artist_boost *
        (((lowerSetNZ user_artists ∩ lowerSetNZ event_artists).card : ℚ)
          / ((lowerSetNZ user_artists).card : ℚ)))
      max_artist_boost

/-- `infer_user_language_pref` (recommender.py lines 107-118). -/
def infer_user_language_pref (user_tags : List String) : String :=
  if "lang_greek" ∈ lowerSet user_tags ∧ "lang_english" ∈ lowerSet user_tags then "both"
  else if "lang_english" ∈ lowerSet user_tags then "english"
  else if "lang_greek" ∈ lowerSet user_tags then "greek"
  else "both"

/-- `compute_language_match` (recommender.py lines 121-136). -/
def compute_language_match (user_lang_pref event_language : String) : ℚ :=
  if pyLower (pyStrip user_lang_pref) = "both" then 1
  else if pyLower (pyStrip user_lang_pref) = "english" then
    (if pyLower (pyStrip event_language) = "english"
        ∨ pyLower (pyStrip event_language) = "both" then 1 else 1/5)
  else if pyLower (pyStrip user_lang_pref) = "greek" then
    (if pyLower (pyStrip event_language) = "greek"
        ∨ pyLower (pyStrip event_language) = "both" then 1 else 1/5)
  else 1

/-- A value passed where `_to_date` (recommender.py lines 15-28) expects a
date: Python `None`, the empty string, a `date` object, a `datetime` object,
a non-empty string together with its `%Y-%m-%d` parse result (`Option.none`
when `strptime` raises), or a value of any other type. Calendar dates are
modelled as integers ordered chronologically. -/
inductive DateInput where
  | noneV : DateInput
  | emptyStrV : DateInput
  | dateV : ℤ → DateInput
  | datetimeV : ℤ → DateInput
  | strV : Option ℤ → DateInput
  | otherV : DateInput

/-- `_to_date` (recommender.py lines 15-28). -/
def toDate : DateInput → Option ℤ
  | DateInput.noneV => Option.none
  | DateInput.emptyStrV => Option.none
  | DateInput.dateV d => some d
  | DateInput.datetimeV d => some d
  | DateInput.strV p => p
  | DateInput.otherV => Option.none

/-- `in_date_window` (recommender.py lines 139-159), with the caller-supplied
reference date `today`. -/
def in_date_window (event_date date_from date_to : DateInput) (today : ℤ) : Bool :=
  match toDate event_date with
  | Option.none => false
  | some d =>
    if d < today then false
    else if (toDate date_from).elim false (fun f => decide (d < f)) then false
    else if (toDate date_to).elim false (fun t => decide (t < d)) then false
    else true

/-- `matched_tags_and_artists` (recommender.py lines 162-173). -/
def matched_tags_and_artists (user_tags user_artists ev_tags ev_artists : List String) :
    List String × List String :=
  (ev_tags.filter (fun t => pyLower t ∈ lowerSet user_tags),
   ev_artists.filter (fun a => pyLower a ∈ lowerSet user_artists))

/-- Round-half-to-even on rationals, the rounding rule of Python `round`. -/
def roundHalfEven (x : ℚ) : ℤ :=
  if Int.fract x < 1/2 then ⌊x⌋
  else if 1/2 < Int.fract x then ⌊x⌋ + 1
  else if ⌊x⌋ % 2 = 0 then ⌊x⌋ else ⌊x⌋ + 1

/-- Python `round(x, 3)` on the rational model of floats. -/
def round3 (x : ℚ) : ℚ := (roundHalfEven (x * 1000) : ℚ) / 1000

/-- An event row as the scorer consumes it: `get_tags`/`get_artists` are the
already-parsed tag and artist lists. -/
structure Event where
  id : ℕ
  title : String
  city : String
  date : ℤ
  language : String
  tags : List String
  artists : List String

/-- The `why` sub-dictionary of a scored event (recommender.py lines 246-252). -/
structure WhyInfo where
  matched_tags : List String
  matched_artists : List String
  city_score : ℚ
  language_match : ℚ
  user_language_pref : String

/-- The `weights` sub-dictionary of the breakdown (recommender.py lines 259-264). -/
structure BreakdownWeights where
  w_cbf : ℚ
  w_context : ℚ
  max_artist_boost : ℚ
  w_language : ℚ

/-- The `breakdown` sub-dictionary of a scored event (recommender.py lines 253-265). -/
structure Breakdown where
  mode : String
  cbf : ℚ
  context : ℚ
  artist_boost : ℚ
  language_term : ℚ
  weights : BreakdownWeights

/-- The dictionary returned by `score_event` (recommender.py lines 237-267);
the human-readable `explanation` string is presentation-only and omitted. -/
structure ScoredEvent where
  id : ℕ
  title : String
  city : String
  date : ℤ
  language : String
  tags : List String
  artists : List String
  score : ℚ
  why : WhyInfo
  breakdown : Breakdown

/-- `score_event` (recommender.py lines 176-267). -/
def score_event (user_tags : List String) (user_city : String)
    (user_artists : List String) (event : Event) (mode : String)
    (w_cbf w_context max_artist_boost w_language : ℚ) : ScoredEvent :=
  let ev_tags := normalize_list event.tags
  let ev_artists := normalize_list event.artists
  let u_tags := normalize_list user_tags
  let u_artists := normalize_list user_artists
  let m := matched_tags_and_artists u_tags u_artists ev_tags ev_artists
  let cbf := jaccard_similarity u_tags ev_tags
  let city_score := compute_city_score event.city user_city
  let context := compute_context_score event.city user_city
  let user_lang_pref := infer_user_language_pref u_tags
  let lang_match := compute_language_match user_lang_pref event.language
  let artist_boost : ℚ :=
    if mode = "baseline" then 0
    else compute_artist_boost u_artists ev_artists max_artist_boost
  let w_context_eff : ℚ := if mode = "baseline" then 0 else w_context
  let w_language_eff : ℚ := if mode = "baseline" then 0 else w_language
  let score0 : ℚ :=
    if mode = "baseline" then cbf
    else w_cbf * cbf + w_context_eff * context + artist_boost
      + w_language_eff * (lang_match - 1/5)
  let score := max 0 (min 1 score0)
  { id := event.id
    title := event.title
    city := event.city
    date := event.date
    language := event.language
    tags := ev_tags
    artists := ev_artists
    score := round3 score
    why :=
      { matched_tags := m.1
        matched_artists := m.2
        city_score := round3 city_score
        language_match := round3 lang_match
        user_language_pref := user_lang_pref }
    breakdown :=
      { mode := mode
        cbf := round3 cbf
        context := round3 context
        artist_boost := round3 artist_boost
        language_term := round3 (w_language_eff * (lang_match - 1/5))
        weights :=
          { w_cbf := w_cbf
            w_context := w_context_eff
            max_artist_boost := max_artist_boost
            w_language := w_language_eff } } }

/-- The first inner `for` of `interleave_random` (main.py lines 96-100): up to
`n` rounds, each appending `ranked[i]` and advancing `i`, stopping early when
`top_n` results are collected or the ranked list is exhausted. -/
def forRankedLoop {α : Type} (ranked : List α) (top_n : ℕ) :
    ℕ → List α → ℕ → List α × ℕ
  | 0, out, i => (out, i)
  | n+1, out, i =>
    if h : i < ranked.length ∧ out.length < top_n then
      forRankedLoop ranked top_n n (out ++ [ranked.get ⟨i, h.1⟩]) (i+1)
    else (out, i)

/-- The second inner `for` of `interleave_random` (main.py lines 102-107): up
to `n` rounds, each popping the last element of the shuffled pool, stopping
early when `top_n` results are collected or the pool is empty. -/
def forPoolLoop {α : Type} (top_n : ℕ) :
    ℕ → List α → List α → List α × List α
  | 0, out, pool => (out, pool)
  | n+1, out, pool =>
    if out.length < top_n then
      match pool.getLast? with
      | Option.none => (out, pool)
      | some x => forPoolLoop top_n n (out ++ [x]) pool.dropLast
    else (out, pool)

/-- The `while` loop of `interleave_random` (main.py lines 95-107).  `fuel`
bounds the number of loop iterations; `Option.none` means the bound was hit.
When `random_every ≥ 1` and `random_count ≥ 1` (the API layer enforces both)
every iteration whose guard holds emits at least one item, so `top_n + 1`
iterations always suffice; a run that exceeds that bound repeats a state
exactly and therefore models a Python loop that never terminates. -/
def whileLoop {α : Type} (ranked : List α) (top_n random_every random_count : ℕ) :
    ℕ → List α → ℕ → List α → Option (List α)
  | 0, _, _, _ => Option.none
  | fuel+1, out, i, pool =>
    if out.length < top_n ∧ (i < ranked.length ∨ pool.isEmpty = false) then
      whileLoop ranked top_n random_every random_count fuel
        (forPoolLoop top_n random_count
          (forRankedLoop ranked top_n random_every out i).1 pool).1
        (forRankedLoop ranked top_n random_every out i).2
        (forPoolLoop top_n random_count
          (forRankedLoop ranked top_n random_every out i).1 pool).2
    else some out

/-- `interleave_random` (main.py lines 72-109).  `shuffle` abstracts
`random.Random(seed_key).shuffle`: a deterministic function of the seed key
and the pool (the code derives all randomness from the explicit seed). -/
def interleave_random {α : Type} (shuffle : String → List α → List α)
    (ranked random_pool : List α) (top_n random_every random_count : ℕ)
    (seed_key : String) : Option (List α) :=
  if top_n ≤ 0 then some []
  else
    whileLoop ranked top_n random_every random_count (top_n + 1) [] 0
      (shuffle seed_key random_pool)

/-- Random-pool selection of the `/recommendations` endpoint (main.py lines
356-359): the lower half of the ranked list when it has more than 10 entries,
otherwise the whole list. -/
def choose_random_pool {α : Type} (ranked : List α) : List α :=
  if 10 < ranked.length then ranked.drop (max 0 (ranked.length / 2)) else ranked

/-- Spec transcription (spec §4.9), round structure: repeatedly emit up to
`random_every` items from the head of the ranked list, then up to
`random_count` items popped from the shuffled pool (here already reversed, so
pops read from the head), until `budget` items are emitted or both sources
are exhausted.  `fuel` mirrors the loop bound of `whileLoop`. -/
def specRounds {α : Type} (random_every random_count : ℕ) :
    ℕ → List α → List α → ℕ → Option (List α)
  | 0, _, _, _ => Option.none
  | fuel+1, rk, pl, budget =>
    if budget = 0 ∨ (rk.isEmpty = true ∧ pl.isEmpty = true) then some []
    else
      Option.map
        (fun rest =>
          rk.take (min random_every budget)
            ++ pl.take (min random_count (budget - (rk.take (min random_every budget)).length))
            ++ rest)
        (specRounds random_every random_count fuel
          (rk.drop (rk.take (min random_every budget)).length)
          (pl.drop (pl.take (min random_count
            (budget - (rk.take (min random_every budget)).length))).length)
          (budget - (rk.take (min random_every budget)).length
            - (pl.take (min random_count
                (budget - (rk.take (min random_every budget)).length))).length))

/-- Spec transcription (spec §4.9), top level: shuffle a copy of the pool
with the generator seeded from `seed_key`, then run the emission rounds for
up to `top_n` items. -/
def spec_diversify {α : Type} (shuffle : String → List α → List α)
    (ranked random_pool : List α) (top_n random_every random_count : ℕ)
    (seed_key : String) : Option (List α) :=
  specRounds random_every random_count (top_n + 1) ranked
    (shuffle seed_key random_pool).reverse top_n

/-- The city pairs (case-folded) on which the shipped proximity matrix is
asymmetric: nicosia/limassol scores 0.6 one way and 0.4 the other,
nicosia/paphos 0.4 vs 0.3, larnaca/limassol 0.7 vs 0.6. -/
def asymmetric_city_pairs : List (String × String) :=
  [("nicosia", "limassol"), ("limassol", "nicosia"),
   ("nicosia", "paphos"), ("paphos", "nicosia"),
   ("larnaca", "limassol"), ("limassol", "larnaca")]

/-- The four city keys of `CITY_DISTANCE_SCORES`. -/
def city_matrix_keys : List String := ["nicosia", "larnaca", "limassol", "paphos"]

/-- A minimal concrete event: one tag `"a"`, no artists, blank city. -/
def eventTags1 : Event :=
  { id := 1, title := "e1", city := "", date := 0, language := "", tags := ["a"], artists := [] }

/-- The concrete event of the spec's worked scenario (spec §8). -/
def specEvent : Event :=
  { id := 2, title := "Limassol Rock Festival", city := "Limassol", date := 0,
    language := "english",
    tags := ["concert", "lang_english", "rock", "live", "festival"],
    artists := ["Imagine Dragons", "Arctic Monkeys"] }

/-- A concrete event whose single artist `"x"` overlaps the user's favourite. -/
def artistEvent : Event :=
  { id := 3, title := "e3", city := "", date := 0, language := "", tags := [], artists := ["x"] }

lemma roundHalfEven_cases (x : ℚ) :
    roundHalfEven x = ⌊x⌋ ∨ roundHalfEven x = ⌊x⌋ + 1 := by
  rw [roundHalfEven]
  split_ifs <;> tauto

lemma roundHalfEven_ge (x : ℚ) (n : ℤ) (h : (n : ℚ) ≤ x) : n ≤ roundHalfEven x := by
  have hf : n ≤ ⌊x⌋ := Int.le_floor.mpr h
  rcases roundHalfEven_cases x with hc | hc <;> rw [hc] <;> omega

lemma roundHalfEven_le (x : ℚ) (n : ℤ) (h : x ≤ (n : ℚ)) : roundHalfEven x ≤ n := by
  rw [roundHalfEven]
  split_ifs with h1 h2 h3
  · calc ⌊x⌋ ≤ ⌊(n : ℚ)⌋ := Int.floor_le_floor h
    _ = n := Int.floor_intCast n
  · have hx : (⌊x⌋ : ℚ) + Int.fract x = x := Int.floor_add_fract x
    have : (⌊x⌋ : ℚ) < (n : ℚ) := by linarith
    have : ⌊x⌋ < n := by exact_mod_cast this
    omega
  · have hfr : 1/2 ≤ Int.fract x := le_of_not_lt h1
    have hx : (⌊x⌋ : ℚ) + Int.fract x = x := Int.floor_add_fract x
    have : (⌊x⌋ : ℚ) < (n : ℚ) := by linarith
    have : ⌊x⌋ < n := by exact_mod_cast this
    omega
  · have hfr : 1/2 ≤ Int.fract x := le_of_not_lt h1
    have hx : (⌊x⌋ : ℚ) + Int.fract x = x := Int.floor_add_fract x
    have : (⌊x⌋ : ℚ) < (n : ℚ) := by linarith
    have : ⌊x⌋ < n := by exact_mod_cast this
    omega

lemma round3_nonneg (x : ℚ) (h : 0 ≤ x) : 0 ≤ round3 x := by
  have h1 : (0 : ℤ) ≤ roundHalfEven (x * 1000) :=
    roundHalfEven_ge _ 0 (by push_cast; linarith)
  have h2 : (0 : ℚ) ≤ (roundHalfEven (x * 1000) : ℚ) := by exact_mod_cast h1
  rw [round3]
  positivity

lemma round3_le_one (x : ℚ) (h : x ≤ 1) : round3 x ≤ 1 := by
  have h1 : roundHalfEven (x * 1000) ≤ 1000 :=
    roundHalfEven_le _ 1000 (by push_cast; linarith)
  have h2 : (roundHalfEven (x * 1000) : ℚ) ≤ 1000 := by exact_mod_cast h1
  rw [round3]
  rw [div_le_one (by norm_num)]
  linarith

lemma round3_eval_lo (x : ℚ) (n : ℤ) (hf : ⌊x * 1000⌋ = n)
    (hfr : Int.fract (x * 1000) < 1/2) : round3 x = (n : ℚ) / 1000 := by
  rw [round3, roundHalfEven, if_pos hfr, hf]

lemma round3_zero : round3 0 = 0 := by
  rw [round3_eval_lo 0 0 (by norm_num) (by rw [Int.fract]; norm_num)]
  norm_num

lemma jaccard_nonneg (u e : List String) : 0 ≤ jaccard_similarity u e := by
  rw [jaccard_similarity]
  split_ifs <;> positivity

lemma jaccard_le_one (u e : List String) : jaccard_similarity u e ≤ 1 := by
  rw [jaccard_similarity]
  split_ifs with h1 h2 h3
  · norm_num
  · norm_num
  · have hcard : (lowerSetNZ u ∩ lowerSetNZ e).card ≤ (lowerSetNZ u ∪ lowerSetNZ e).card :=
      Finset.card_le_card (Finset.inter_subset_union)
    have hpos : 0 < (lowerSetNZ u ∪ lowerSetNZ e).card :=
      Finset.card_pos.mpr (Finset.nonempty_iff_ne_empty.mpr h3)
    rw [div_le_one (by exact_mod_cast hpos)]
    exact_mod_cast hcard
  · norm_num

/-- The `score` field of `score_event`, unfolded: the mode-dependent raw
score, clamped to `[0,1]`, then rounded to three decimals. -/
lemma score_event_score_def (ut : List String) (uc : String) (ua : List String)
    (ev : Event) (mode : String) (w1 w2 w3 w4 : ℚ) :
    (score_event ut uc ua ev mode w1 w2 w3 w4).score =
      round3 (max 0 (min 1 (if mode = "baseline"
        then jaccard_similarity (normalize_list ut) (normalize_list ev.tags)
        else w1 * jaccard_similarity (normalize_list ut) (normalize_list ev.tags)
          + (if mode = "baseline" then 0 else w2) * compute_context_score ev.city uc
          + (if mode = "baseline" then 0
             else compute_artist_boost (normalize_list ua) (normalize_list ev.artists) w3)
          + (if mode = "baseline" then 0 else w4)
            * (compute_language_match (infer_user_language_pref (normalize_list ut))
                ev.language - 1/5)))) := rfl

/-- C3: for every profile, event, mode and (finite, i.e. rational) weights,
the score returned by `score_event` lies in `[0, 1]`: the raw composite is
clamped to `[0,1]` and rounding to three decimals preserves those bounds. -/
theorem C3_score_bounded (ut : List String) (uc : String) (ua : List String)
    (ev : Event) (mode : String) (w1 w2 w3 w4 : ℚ) :
    0 ≤ (score_event ut uc ua ev mode w1 w2 w3 w4).score ∧
      (score_event ut uc ua ev mode w1 w2 w3 w4).score ≤ 1 := by
  rw [score_event_score_def]
  constructor
  · exact round3_nonneg _ (le_max_left _ _)
  · exact round3_le_one _ (max_le (by norm_num) (min_le_left _ _))

/-- C6: `in_date_window` is true exactly when the event date parses to some
day `d` with `today ≤ d`, `d` at or after any given `date_from`, and `d` at
or before any given `date_to`; a missing or unparsable event date yields
`false` (the function is total — never an error). -/
theorem C6_in_date_window_iff (ed df dt : DateInput) (today : ℤ) :
    in_date_window ed df dt today = true ↔
      ∃ d, toDate ed = some d ∧ today ≤ d ∧
        (∀ f, toDate df = some f → f ≤ d) ∧
        (∀ t, toDate dt = some t → d ≤ t) := by
  cases hed : toDate ed <;> cases hdf : toDate df <;> cases hdt : toDate dt <;>
    simp [in_date_window, hed, hdf, hdt] <;> omega

lemma clamp_of_mem_unit (x : ℚ) (h0 : 0 ≤ x) (h1 : x ≤ 1) :
    max 0 (min 1 x) = x := by
  rw [min_eq_right h1, max_eq_right h0]

lemma jaccard_eval (u e : List String) (ni nu : ℕ)
    (h1 : ¬(u = [] ∨ e = []))
    (h2 : ¬(lowerSetNZ u = ∅ ∨ lowerSetNZ e = ∅))
    (h3 : lowerSetNZ u ∪ lowerSetNZ e ≠ ∅)
    (hi : (lowerSetNZ u ∩ lowerSetNZ e).card = ni)
    (hu : (lowerSetNZ u ∪ lowerSetNZ e).card = nu) :
    jaccard_similarity u e = (ni : ℚ) / (nu : ℚ) := by
  rw [jaccard_similarity, if_neg h1, if_neg h2, if_pos h3, hi, hu]

/-- C2 (amended): in baseline mode the returned score is the Jaccard
similarity of the normalized tag lists, rounded to three decimals (the
clamp to `[0,1]` is the identity on a Jaccard value). -/
theorem C2_baseline_score (ut : List String) (uc : String) (ua : List String)
    (ev : Event) (mode : String) (w1 w2 w3 w4 : ℚ) (h : mode = "baseline") :
    (score_event ut uc ua ev mode w1 w2 w3 w4).score =
      round3 (jaccard_similarity (normalize_list ut) (normalize_list ev.tags)) := by
  subst h
  rw [score_event_score_def, if_pos rfl,
    clamp_of_mem_unit _ (jaccard_nonneg _ _) (jaccard_le_one _ _)]

/-- Witness for C2 at a concrete input: the hypothesis `mode = "baseline"`
holds and the returned score evaluates to the rounded Jaccard value 1.0. -/
theorem C2_baseline_score_witness :
    (("baseline" : String) = "baseline") ∧
      (score_event ["a"] "" [] eventTags1 "baseline" 0 0 0 0).score =
        round3 (jaccard_similarity (normalize_list ["a"]) (normalize_list eventTags1.tags)) :=
  ⟨rfl, C2_baseline_score ["a"] "" [] eventTags1 "baseline" 0 0 0 0 rfl⟩

/-- C2 counterexample: the claim as stated (score equals the Jaccard value
exactly) fails, because the returned score is rounded to three decimals:
with user tags `a,b,c` and event tags `a` the Jaccard value is 1/3 but the
returned score is 0.333. -/
theorem C2_counterexample :
    (score_event ["a", "b", "c"] "" [] eventTags1 "baseline" 0 0 0 0).score ≠
      jaccard_similarity ["a", "b", "c"] ["a"] := by
  have hn1 : normalize_list ["a", "b", "c"] = ["a", "b", "c"] := by decide
  have hn2 : normalize_list eventTags1.tags = ["a"] := by decide
  have hj : jaccard_similarity ["a", "b", "c"] ["a"] = (1 : ℚ) / 3 := by
    rw [jaccard_eval ["a", "b", "c"] ["a"] 1 3 (by decide) (by decide) (by decide)
      (by decide) (by decide)]
    norm_num
  have hr : round3 ((1 : ℚ) / 3) = 333 / 1000 := by
    rw [round3_eval_lo (1/3) 333 (by norm_num) (by rw [Int.fract]; norm_num)]
    norm_num
  rw [score_event_score_def, if_pos rfl, hn1, hn2, hj,
    clamp_of_mem_unit _ (by norm_num) (by norm_num), hr]
  norm_num

lemma artist_boost_eval_full (ua ea : List String) (m : ℚ)
    (h1 : ¬(ua = [] ∨ ea = []))
    (h2 : ¬(lowerSetNZ ua = ∅ ∨ lowerSetNZ ea = ∅))
    (h3 : ¬(lowerSetNZ ua ∩ lowerSetNZ ea).card = 0)
    (hi : (lowerSetNZ ua ∩ lowerSetNZ ea).card = 1)
    (hu : (lowerSetNZ ua).card = 1) :
    compute_artist_boost ua ea m = min (m * 1) m := by
  rw [compute_artist_boost, if_neg h1, if_neg h2, if_neg h3, hi, hu]
  norm_num

/-- C1 (amended): in hybrid mode the returned score is the weighted formula
`w_cbf*cbf + w_context*context + artist_boost + w_language*(language_match
- 0.2)` clamped to `[0,1]` and then rounded to three decimals; on the spec's
concrete scenario the result is exactly 0.98 (rounding is the identity
there). -/
theorem C1_hybrid_score :
    (∀ (ut : List String) (uc : String) (ua : List String) (ev : Event)
      (mode : String) (w1 w2 w3 w4 : ℚ), mode = "hybrid" →
      (score_event ut uc ua ev mode w1 w2 w3 w4).score =
        round3 (max 0 (min 1
          (w1 * jaccard_similarity (normalize_list ut) (normalize_list ev.tags)
            + w2 * compute_context_score ev.city uc
            + compute_artist_boost (normalize_list ua) (normalize_list ev.artists) w3
            + w4 * (compute_language_match
                (infer_user_language_pref (normalize_list ut)) ev.language - 1/5)))))
    ∧ (score_event ["rock", "live"] "Nicosia" ["Imagine Dragons"] specEvent
        "hybrid" (6/10) (4/10) (3/10) (3/20)).score = 49/50 := by
  constructor
  · intro ut uc ua ev mode w1 w2 w3 w4 h
    subst h
    rfl
  · have hn1 : normalize_list ["rock", "live"] = ["rock", "live"] := by decide
    have hn2 : normalize_list specEvent.tags =
        ["concert", "lang_english", "rock", "live", "festival"] := by decide
    have hn3 : normalize_list ["Imagine Dragons"] = ["Imagine Dragons"] := by decide
    have hn4 : normalize_list specEvent.artists =
        ["Imagine Dragons", "Arctic Monkeys"] := by decide
    have hj : jaccard_similarity ["rock", "live"]
        ["concert", "lang_english", "rock", "live", "festival"] = (2 : ℚ) / 5 := by
      rw [jaccard_eval _ _ 2 5 (by decide) (by decide) (by decide) (by decide) (by decide)]
      norm_num
    have hcity : compute_city_score specEvent.city "Nicosia" = 6/10 := rfl
    have hctx : compute_context_score specEvent.city "Nicosia" = (6/10 + 1) / 2 := by
      rw [compute_context_score, hcity]
    have hab : compute_artist_boost ["Imagine Dragons"]
        ["Imagine Dragons", "Arctic Monkeys"] (3/10) = 3/10 := by
      rw [artist_boost_eval_full _ _ _ (by decide) (by decide) (by decide)
        (by decide) (by decide)]
      norm_num
    have hpref : infer_user_language_pref ["rock", "live"] = "both" := by decide
    have hlang : compute_language_match "both" specEvent.language = 1 := rfl
    have hsum : (6:ℚ)/10 * (2/5) + 4/10 * ((6/10 + 1) / 2) + 3/10
        + 3/20 * (1 - 1/5) = 49/50 := by norm_num
    rw [score_event_score_def]
    simp only [if_neg (show ¬("hybrid" = "baseline") by decide)]
    rw [hn1, hn2, hn3, hn4, hj, hctx, hab, hpref, hlang, hsum,
      clamp_of_mem_unit _ (by norm_num) (by norm_num)]
    rw [round3_eval_lo (49/50) 980 (by norm_num) (by rw [Int.fract]; norm_num)]
    norm_num

/-- Witness for C1: the hybrid-mode hypothesis holds at the spec scenario's
inputs and the general formula applies there. -/
theorem C1_hybrid_score_witness :
    (("hybrid" : String) = "hybrid") ∧
      (score_event ["rock", "live"] "Nicosia" ["Imagine Dragons"] specEvent
          "hybrid" (6/10) (4/10) (3/10) (3/20)).score =
        round3 (max 0 (min 1
          ((6:ℚ)/10 * jaccard_similarity (normalize_list ["rock", "live"])
              (normalize_list specEvent.tags)
            + 4/10 * compute_context_score specEvent.city "Nicosia"
            + compute_artist_boost (normalize_list ["Imagine Dragons"])
                (normalize_list specEvent.artists) (3/10)
            + 3/20 * (compute_language_match
                (infer_user_language_pref (normalize_list ["rock", "live"]))
                specEvent.language - 1/5)))) :=
  ⟨rfl, C1_hybrid_score.1 ["rock", "live"] "Nicosia" ["Imagine Dragons"] specEvent
    "hybrid" (6/10) (4/10) (3/10) (3/20) rfl⟩

/-- C1 counterexample: the claim as stated (returned score equals the clamped
formula exactly) fails because the returned score is rounded to three
decimals: with weights (1,0,0,0) and Jaccard 1/3 the clamped formula is 1/3
but the returned score is 0.333. -/
theorem C1_counterexample :
    (score_event ["a", "b", "c"] "" [] eventTags1 "hybrid" 1 0 0 0).score ≠
      max 0 (min 1
        (1 * jaccard_similarity (normalize_list ["a", "b", "c"])
            (normalize_list eventTags1.tags)
          + 0 * compute_context_score eventTags1.city ""
          + compute_artist_boost (normalize_list ([] : List String))
              (normalize_list eventTags1.artists) 0
          + 0 * (compute_language_match
              (infer_user_language_pref (normalize_list ["a", "b", "c"]))
              eventTags1.language - 1/5))) := by
  have hn1 : normalize_list ["a", "b", "c"] = ["a", "b", "c"] := by decide
  have hn2 : normalize_list eventTags1.tags = ["a"] := by decide
  have hn0 : normalize_list ([] : List String) = [] := rfl
  have hj : jaccard_similarity ["a", "b", "c"] ["a"] = (1 : ℚ) / 3 := by
    rw [jaccard_eval ["a", "b", "c"] ["a"] 1 3 (by decide) (by decide) (by decide)
      (by decide) (by decide)]
    norm_num
  have hab : compute_artist_boost [] (normalize_list eventTags1.artists) 0 = 0 := by
    rw [compute_artist_boost, if_pos (Or.inl rfl)]
  have hsum : 1 * ((1:ℚ)/3) + 0 * compute_context_score eventTags1.city "" + 0
      + 0 * (compute_language_match
        (infer_user_language_pref ["a", "b", "c"]) eventTags1.language - 1/5)
      = 1/3 := by ring
  have hr : round3 ((1 : ℚ) / 3) = 333 / 1000 := by
    rw [round3_eval_lo (1/3) 333 (by norm_num) (by rw [Int.fract]; norm_num)]
    norm_num
  rw [score_event_score_def]
  simp only [if_neg (show ¬("hybrid" = "baseline") by decide)]
  rw [hn1, hn2, hn0, hj, hab, hsum,
    clamp_of_mem_unit _ (by norm_num) (by norm_num), hr]
  norm_num

/-- C9 (amended): in baseline mode the context and language terms are indeed
computed and reported in the result with zero effective weight, but the
artist boost is NOT computed: the breakdown reports `artist_boost = 0`
unconditionally (and `weights.max_artist_boost` is passed through unchanged
rather than zeroed). -/
theorem C9_baseline_reporting (ut : List String) (uc : String) (ua : List String)
    (ev : Event) (mode : String) (w1 w2 w3 w4 : ℚ) (h : mode = "baseline") :
    (score_event ut uc ua ev mode w1 w2 w3 w4).breakdown.context
        = round3 (compute_context_score ev.city uc) ∧
      (score_event ut uc ua ev mode w1 w2 w3 w4).why.city_score
        = round3 (compute_city_score ev.city uc) ∧
      (score_event ut uc ua ev mode w1 w2 w3 w4).why.language_match
        = round3 (compute_language_match
            (infer_user_language_pref (normalize_list ut)) ev.language) ∧
      (score_event ut uc ua ev mode w1 w2 w3 w4).why.user_language_pref
        = infer_user_language_pref (normalize_list ut) ∧
      (score_event ut uc ua ev mode w1 w2 w3 w4).breakdown.artist_boost = 0 ∧
      (score_event ut uc ua ev mode w1 w2 w3 w4).breakdown.language_term = 0 ∧
      (score_event ut uc ua ev mode w1 w2 w3 w4).breakdown.weights.w_context = 0 ∧
      (score_event ut uc ua ev mode w1 w2 w3 w4).breakdown.weights.w_language = 0 ∧
      (score_event ut uc ua ev mode w1 w2 w3 w4).breakdown.weights.w_cbf = w1 ∧
      (score_event ut uc ua ev mode w1 w2 w3 w4).breakdown.weights.max_artist_boost
        = w3 := by
  subst h
  refine ⟨rfl, rfl, rfl, rfl, ?_, ?_, rfl, rfl, rfl, rfl⟩
  · exact round3_zero
  · show round3 ((0 : ℚ) * (compute_language_match
        (infer_user_language_pref (normalize_list ut)) ev.language - 1/5)) = 0
    rw [zero_mul]
    exact round3_zero

/-- Witness for C9 at a concrete baseline input. -/
theorem C9_baseline_reporting_witness :
    (score_event ["a"] "" ["x"] artistEvent "baseline" (6/10) (4/10) (3/10)
          (3/20)).breakdown.context
        = round3 (compute_context_score artistEvent.city "") ∧
      (score_event ["a"] "" ["x"] artistEvent "baseline" (6/10) (4/10) (3/10)
          (3/20)).why.city_score
        = round3 (compute_city_score artistEvent.city "") ∧
      (score_event ["a"] "" ["x"] artistEvent "baseline" (6/10) (4/10) (3/10)
          (3/20)).why.language_match
        = round3 (compute_language_match
            (infer_user_language_pref (normalize_list ["a"])) artistEvent.language) ∧
      (score_event ["a"] "" ["x"] artistEvent "baseline" (6/10) (4/10) (3/10)
          (3/20)).why.user_language_pref
        = infer_user_language_pref (normalize_list ["a"]) ∧
      (score_event ["a"] "" ["x"] artistEvent "baseline" (6/10) (4/10) (3/10)
          (3/20)).breakdown.artist_boost = 0 ∧
      (score_event ["a"] "" ["x"] artistEvent "baseline" (6/10) (4/10) (3/10)
          (3/20)).breakdown.language_term = 0 ∧
      (score_event ["a"] "" ["x"] artistEvent "baseline" (6/10) (4/10) (3/10)
          (3/20)).breakdown.weights.w_context = 0 ∧
      (score_event ["a"] "" ["x"] artistEvent "baseline" (6/10) (4/10) (3/10)
          (3/20)).breakdown.weights.w_language = 0 ∧
      (score_event ["a"] "" ["x"] artistEvent "baseline" (6/10) (4/10) (3/10)
          (3/20)).breakdown.weights.w_cbf = 6/10 ∧
      (score_event ["a"] "" ["x"] artistEvent "baseline" (6/10) (4/10) (3/10)
          (3/20)).breakdown.weights.max_artist_boost = 3/10 :=
  C9_baseline_reporting ["a"] "" ["x"] artistEvent "baseline" (6/10) (4/10)
    (3/10) (3/20) rfl

/-- C9 counterexample: in baseline mode the reported `artist_boost` is not
the computed artist-boost term: user favourite `x` overlaps event artist `x`
(boost 0.3 under `max_artist_boost = 0.3`), yet the breakdown reports 0. -/
theorem C9_counterexample :
    (score_event [] "" ["x"] artistEvent "baseline" (6/10) (4/10) (3/10)
        (3/20)).breakdown.artist_boost ≠
      round3 (compute_artist_boost (normalize_list ["x"])
        (normalize_list artistEvent.artists) (3/10)) := by
  have hl : (score_event [] "" ["x"] artistEvent "baseline" (6/10) (4/10) (3/10)
      (3/20)).breakdown.artist_boost = round3 0 := rfl
  have hn1 : normalize_list ["x"] = ["x"] := by decide
  have hn2 : normalize_list artistEvent.artists = ["x"] := by decide
  have hb : compute_artist_boost ["x"] ["x"] (3/10) = 3/10 := by
    rw [artist_boost_eval_full _ _ _ (by decide) (by decide) (by decide)
      (by decide) (by decide)]
    norm_num
  have hr : round3 ((3 : ℚ) / 10) = 3 / 10 := by
    rw [round3_eval_lo (3/10) 300 (by norm_num) (by rw [Int.fract]; norm_num)]
    norm_num
  rw [hl, round3_zero, hn1, hn2, hb, hr]
  norm_num

/-- C7 (amended): `jaccard_similarity` is symmetric and returns 0 when either
list is empty; `jaccard_similarity(A,A) = 1` holds when `A` contains at least
one non-empty tag (a list of only empty strings folds to the empty set and
scores 0, not 1). -/
theorem C7_jaccard_properties :
    (∀ A B : List String, jaccard_similarity A B = jaccard_similarity B A) ∧
      (∀ A : List String, (∃ t ∈ A, t ≠ "") → jaccard_similarity A A = 1) ∧
      (∀ A B : List String, A = [] ∨ B = [] → jaccard_similarity A B = 0) := by
  refine ⟨?_, ?_, ?_⟩
  · intro A B
    by_cases hA : A = []
    · simp [jaccard_similarity, hA]
    · by_cases hB : B = []
      · simp [jaccard_similarity, hA, hB]
      · rw [jaccard_similarity, jaccard_similarity,
          if_neg (show ¬(A = [] ∨ B = []) by tauto),
          if_neg (show ¬(B = [] ∨ A = []) by tauto)]
        by_cases hu : lowerSetNZ A = ∅
        · simp [hu]
        · by_cases he : lowerSetNZ B = ∅
          · simp [he]
          · rw [if_neg (show ¬(lowerSetNZ A = ∅ ∨ lowerSetNZ B = ∅) by tauto),
              if_neg (show ¬(lowerSetNZ B = ∅ ∨ lowerSetNZ A = ∅) by tauto),
              Finset.union_comm (lowerSetNZ A) (lowerSetNZ B),
              Finset.inter_comm (lowerSetNZ A) (lowerSetNZ B)]
  · rintro A ⟨t, htA, htne⟩
    have hAne : A ≠ [] := List.ne_nil_of_mem htA
    have hmem : pyLower t ∈ lowerSetNZ A := by
      simp only [lowerSetNZ, List.mem_toFinset, List.mem_map, List.mem_filter]
      exact ⟨t, ⟨htA, by simpa using htne⟩, rfl⟩
    have hs : lowerSetNZ A ≠ ∅ := Finset.ne_empty_of_mem hmem
    have hpos : 0 < (lowerSetNZ A).card :=
      Finset.card_pos.mpr (Finset.nonempty_iff_ne_empty.mpr hs)
    rw [jaccard_similarity, if_neg (by tauto), if_neg (by tauto),
      if_pos (by rw [Finset.union_self]; exact hs),
      Finset.inter_self, Finset.union_self]
    rw [div_self]
    exact_mod_cast hpos.ne'
  · intro A B h
    rw [jaccard_similarity, if_pos h]

/-- Witness for C7: the self-similarity part at `A = ["a"]` (which contains a
non-empty tag) and the empty part at `(["b"], [])`. -/
theorem C7_jaccard_properties_witness :
    ((∃ t ∈ (["a"] : List String), t ≠ "") ∧ jaccard_similarity ["a"] ["a"] = 1) ∧
      ((["b"] : List String) = [] ∨ ([] : List String) = []) ∧
        jaccard_similarity ["b"] [] = 0 :=
  ⟨⟨by decide, C7_jaccard_properties.2.1 ["a"] (by decide)⟩,
   ⟨Or.inr rfl, C7_jaccard_properties.2.2 ["b"] [] (Or.inr rfl)⟩⟩

/-- C7 counterexample: `[""]` is a non-empty tag list, yet its
self-similarity is 0, not 1 — the set comprehension drops empty strings, so
the claim's side condition "A non-empty" is too weak. -/
theorem C7_counterexample :
    (([""] : List String) ≠ []) ∧ jaccard_similarity [""] [""] ≠ 1 := by
  constructor
  · simp
  · have h : jaccard_similarity [""] [""] = 0 := by
      rw [jaccard_similarity, if_neg (by decide), if_pos (by decide)]
    rw [h]
    norm_num

lemma city_cases (s : String) :
    s = "nicosia" ∨ s = "larnaca" ∨ s = "limassol" ∨ s = "paphos" ∨
      (s ≠ "nicosia" ∧ s ≠ "larnaca" ∧ s ≠ "limassol" ∧ s ≠ "paphos") := by
  by_cases h1 : s = "nicosia" <;> by_cases h2 : s = "larnaca" <;>
    by_cases h3 : s = "limassol" <;> by_cases h4 : s = "paphos" <;> tauto

/-- C8 (amended): the city lookup is symmetric for every pair except the
three case-folded pairs on which the shipped matrix is asymmetric
(nicosia/limassol 0.6 vs 0.4, nicosia/paphos 0.4 vs 0.3, larnaca/limassol
0.7 vs 0.6); empty cities and cities absent from the matrix score the fixed
fallback 0.3. -/
theorem C8_city_score_properties :
    (∀ a b : String,
        (pyLower (pyStrip a), pyLower (pyStrip b)) ∉ asymmetric_city_pairs →
        compute_city_score a b = compute_city_score b a) ∧
      (∀ a b : String, a = "" ∨ b = "" → compute_city_score a b = 3/10) ∧
      (∀ a b : String, a ≠ "" → b ≠ "" →
        (pyLower (pyStrip a) ∉ city_matrix_keys ∨
          pyLower (pyStrip b) ∉ city_matrix_keys) →
        compute_city_score a b = 3/10) := by
  refine ⟨?_, ?_, ?_⟩
  · intro a b hnp
    by_cases ha : a = ""
    · simp [compute_city_score, ha]
    · by_cases hb : b = ""
      · simp [compute_city_score, hb]
      · rcases city_cases (pyLower (pyStrip a)) with h1|h1|h1|h1|h1 <;>
          rcases city_cases (pyLower (pyStrip b)) with h2|h2|h2|h2|h2 <;>
          simp_all [compute_city_score, CITY_DISTANCE_SCORES, asymmetric_city_pairs]
  · intro a b h
    rcases h with h | h <;> simp [compute_city_score, h]
  · intro a b ha hb hmem
    rcases hmem with hm | hm <;>
      rcases city_cases (pyLower (pyStrip a)) with h1|h1|h1|h1|h1 <;>
      rcases city_cases (pyLower (pyStrip b)) with h2|h2|h2|h2|h2 <;>
      simp_all [compute_city_score, CITY_DISTANCE_SCORES, city_matrix_keys]

/-- Witness for C8: larnaca/paphos is not an asymmetric pair and the lookup
agrees in both directions there; the fallback parts at a blank and at an
unknown city. -/
theorem C8_city_score_properties_witness :
    (((pyLower (pyStrip "larnaca"), pyLower (pyStrip "paphos")) ∉
        asymmetric_city_pairs) ∧
      compute_city_score "larnaca" "paphos" = compute_city_score "paphos" "larnaca") ∧
      ((("" : String) = "" ∨ ("nicosia" : String) = "") ∧
        compute_city_score "" "nicosia" = 3/10) ∧
      (("berlin" : String) ≠ "" ∧ ("nicosia" : String) ≠ "" ∧
        (pyLower (pyStrip "berlin") ∉ city_matrix_keys ∨
          pyLower (pyStrip "nicosia") ∉ city_matrix_keys) ∧
        compute_city_score "berlin" "nicosia" = 3/10) :=
  ⟨⟨by decide, C8_city_score_properties.1 "larnaca" "paphos" (by decide)⟩,
   ⟨Or.inl rfl, C8_city_score_properties.2.1 "" "nicosia" (Or.inl rfl)⟩,
   ⟨by decide, by decide, Or.inl (by decide),
     C8_city_score_properties.2.2 "berlin" "nicosia" (by decide) (by decide)
       (Or.inl (by decide))⟩⟩

/-- C8 counterexample: the lookup is not symmetric — Nicosia→Limassol scores
0.6 while Limassol→Nicosia scores 0.4. -/
theorem C8_counterexample :
    compute_city_score "nicosia" "limassol" ≠ compute_city_score "limassol" "nicosia" := by
  have h1 : compute_city_score "nicosia" "limassol" = 4/10 := rfl
  have h2 : compute_city_score "limassol" "nicosia" = 6/10 := rfl
  rw [h1, h2]
  norm_num

lemma forRankedLoop_eq {α : Type} (ranked : List α) (top_n : ℕ) :
    ∀ (n : ℕ) (out : List α) (i : ℕ),
      forRankedLoop ranked top_n n out i =
        (out ++ (ranked.drop i).take (min n (top_n - out.length)),
         i + ((ranked.drop i).take (min n (top_n - out.length))).length) := by
  intro n
  induction n with
  | zero => intro out i; simp [forRankedLoop]
  | succ n ih =>
    intro out i
    rw [forRankedLoop]
    split
    next h =>
      rw [ih]
      have hmin : min (n+1) (top_n - out.length)
          = min n (top_n - out.length - 1) + 1 := by omega
      have hlen : top_n - (out ++ [ranked.get ⟨i, h.1⟩]).length
          = top_n - out.length - 1 := by
        simp [List.length_append]
        omega
      rw [hlen, hmin, List.drop_eq_getElem_cons h.1, List.take_succ_cons]
      simp [List.append_assoc, List.get_eq_getElem]
      omega
    next h =>
      rcases Nat.lt_or_ge i ranked.length with hi | hi
      · have hz : top_n - out.length = 0 := by
          rcases Decidable.not_and_iff_or_not.mp h with hh | hh
          · omega
          · omega
        simp [hz]
      · have hd : ranked.drop i = [] := List.drop_eq_nil_of_le hi
        simp [hd]

lemma forPoolLoop_eq {α : Type} (top_n : ℕ) :
    ∀ (n : ℕ) (out pool : List α),
      forPoolLoop top_n n out pool =
        (out ++ pool.reverse.take (min n (top_n - out.length)),
         (pool.reverse.drop (min n (min (top_n - out.length) pool.length))).reverse) := by
  intro n
  induction n with
  | zero => intro out pool; simp [forPoolLoop]
  | succ n ih =>
    intro out pool
    rw [forPoolLoop]
    by_cases hb : out.length < top_n
    · rw [if_pos hb]
      rcases List.eq_nil_or_concat pool with rfl | ⟨l, x, rfl⟩
      · show (out, ([] : List _)) = _
        simp
      · simp only [List.concat_eq_append, List.getLast?_concat, List.dropLast_concat]
        rw [ih]
        have hrev : (l ++ [x]).reverse = x :: l.reverse := by
          simp [List.reverse_append]
        have hlen : top_n - (out ++ [x]).length = top_n - out.length - 1 := by
          simp [List.length_append]
          omega
        have hmin1 : min (n+1) (top_n - out.length)
            = min n (top_n - out.length - 1) + 1 := by omega
        have hmin2 : min (n+1) (min (top_n - out.length) (l ++ [x]).length)
            = min n (min (top_n - out.length - 1) l.length) + 1 := by
          simp [List.length_append]
          omega
        rw [hrev, hlen, hmin1, hmin2, List.take_succ_cons, List.drop_succ_cons]
        simp [List.append_assoc, List.length_reverse]
    · rw [if_neg hb]
      have hz : top_n - out.length = 0 := by omega
      simp [hz]

lemma whileLoop_eq_specRounds {α : Type} (ranked : List α) (top_n re rc : ℕ) :
    ∀ (fuel : ℕ) (out : List α) (i : ℕ) (pool : List α), out.length ≤ top_n →
      whileLoop ranked top_n re rc fuel out i pool =
        Option.map (fun rest => out ++ rest)
          (specRounds re rc fuel (ranked.drop i) pool.reverse (top_n - out.length)) := by
  intro fuel
  induction fuel with
  | zero => intro out i pool hle; simp [whileLoop, specRounds]
  | succ fuel ih =>
    intro out i pool hle
    rw [whileLoop, specRounds]
    by_cases hc : out.length < top_n ∧ (i < ranked.length ∨ pool.isEmpty = false)
    · rw [if_pos hc]
      have hns : ¬(top_n - out.length = 0 ∨
          ((ranked.drop i).isEmpty = true ∧ pool.reverse.isEmpty = true)) := by
        rcases hc with ⟨h1, h2⟩
        rintro (hbz | ⟨hrk, hpl⟩)
        · omega
        · rcases h2 with h2 | h2
          · rw [List.isEmpty_iff] at hrk
            have := List.drop_eq_nil_iff.mp hrk
            omega
          · rw [List.isEmpty_iff, List.reverse_eq_nil_iff] at hpl
            rw [hpl] at h2
            simp at h2
      rw [if_neg hns, forRankedLoop_eq]
      dsimp only
      rw [forPoolLoop_eq]
      dsimp only
      rw [ih]
      · rw [Option.map_map]
        congr 1
        · funext rest
          simp [List.append_assoc]
          omega
        · congr 1
          · rw [List.drop_drop, Nat.add_comm]
          · rw [List.reverse_reverse]
            congr 1
            simp only [List.length_take, List.length_append, List.length_reverse]
            omega
          · simp only [List.length_take, List.length_append, List.length_reverse]
            omega
      · simp only [List.length_append, List.length_take]
        omega
    · rw [if_neg hc]
      have hsp : top_n - out.length = 0 ∨
          ((ranked.drop i).isEmpty = true ∧ pool.reverse.isEmpty = true) := by
        rcases Decidable.not_and_iff_or_not.mp hc with h1 | h2
        · left
          omega
        · right
          rcases not_or.mp h2 with ⟨ha, hb⟩
          constructor
          · rw [List.isEmpty_iff, List.drop_eq_nil_iff]
            omega
          · rw [List.isEmpty_iff, List.reverse_eq_nil_iff]
            rcases List.eq_nil_or_concat pool with hp | ⟨l, x, rfl⟩
            · exact hp
            · exfalso
              apply hb
              simp
      rw [if_pos hsp]
      simp

lemma interleave_eq_spec {α : Type} (shuffle : String → List α → List α)
    (ranked random_pool : List α) (top_n re rc : ℕ) (seed : String) :
    interleave_random shuffle ranked random_pool top_n re rc seed
      = spec_diversify shuffle ranked random_pool top_n re rc seed := by
  rw [interleave_random, spec_diversify]
  by_cases h : top_n ≤ 0
  · rw [if_pos h]
    have hz : top_n = 0 := by omega
    subst hz
    rw [specRounds, if_pos (Or.inl rfl)]
  · rw [if_neg h,
      whileLoop_eq_specRounds ranked top_n re rc (top_n+1) [] 0
        (shuffle seed random_pool) (by simp)]
    simp

lemma whileLoop_isSome {α : Type} (ranked : List α) (top_n re rc : ℕ)
    (hre : 1 ≤ re) (hrc : 1 ≤ rc) :
    ∀ (fuel : ℕ) (out : List α) (i : ℕ) (pool : List α),
      out.length ≤ top_n → top_n - out.length < fuel →
      (whileLoop ranked top_n re rc fuel out i pool).isSome = true := by
  intro fuel
  induction fuel with
  | zero => intro out i pool h1 h2; omega
  | succ fuel ih =>
    intro out i pool h1 h2
    rw [whileLoop]
    by_cases hc : out.length < top_n ∧ (i < ranked.length ∨ pool.isEmpty = false)
    · rw [if_pos hc]
      rw [forRankedLoop_eq]
      dsimp only
      rw [forPoolLoop_eq]
      dsimp only
      rcases hc with ⟨h3, h4⟩
      apply ih
      · simp only [List.length_append, List.length_take, List.length_drop,
          List.length_reverse]
        omega
      · rcases h4 with h4 | h4
        · simp only [List.length_append, List.length_take, List.length_drop,
            List.length_reverse]
          omega
        · have hp : 1 ≤ pool.length := by
            rcases List.eq_nil_or_concat pool with rfl | ⟨l, x, rfl⟩
            · simp at h4
            · simp
          simp only [List.length_append, List.length_take, List.length_drop,
            List.length_reverse]
          omega
    · rw [if_neg hc]
      simp

lemma interleave_isSome {α : Type} (shuffle : String → List α → List α)
    (ranked random_pool : List α) (top_n re rc : ℕ) (seed : String)
    (hre : 1 ≤ re) (hrc : 1 ≤ rc) :
    (interleave_random shuffle ranked random_pool top_n re rc seed).isSome = true := by
  rw [interleave_random]
  by_cases h : top_n ≤ 0
  · rw [if_pos h]
    rfl
  · rw [if_neg h]
    exact whileLoop_isSome ranked top_n re rc hre hrc (top_n+1) [] 0 _
      (by simp) (by simp)

lemma interleave_scenario (r1 r2 r3 r4 r5 r6 p : ℕ) (q : List ℕ) (seed : String) :
    interleave_random (fun _ l => l) [r1, r2, r3, r4, r5, r6] (q ++ [p]) 3 1 1 seed
      = some [r1, p, r2] := by
  rw [interleave_eq_spec, spec_diversify]
  rw [List.reverse_append]
  simp only [List.reverse_cons, List.reverse_nil, List.nil_append, List.singleton_append]
  rw [specRounds, if_neg (by simp)]
  rw [specRounds, if_neg (by simp)]
  rw [specRounds, if_pos (by norm_num)]
  simp

/-- C4: `interleave_random` follows the spec's diversification algorithm
exactly: for every shuffle function, ranked list, pool and parameters it
equals the spec-transcribed `spec_diversify` (shuffle the pool with the
seeded generator, then rounds of up to `random_every` ranked-head items
followed by up to `random_count` pool pops, until `top_n` items or both
sources are exhausted); it terminates with a result whenever
`random_every ≥ 1` and `random_count ≥ 1`; and on a 6-item ranked list with
`top_n = 3, random_every = 1, random_count = 1` the output is one ranked
item, one pooled item, one ranked item. -/
theorem C4_diversify_follows_spec :
    (∀ (α : Type) (shuffle : String → List α → List α) (ranked pool : List α)
        (top_n re rc : ℕ) (seed : String),
      interleave_random shuffle ranked pool top_n re rc seed
        = spec_diversify shuffle ranked pool top_n re rc seed)
    ∧ (∀ (α : Type) (shuffle : String → List α → List α) (ranked pool : List α)
        (top_n re rc : ℕ) (seed : String), 1 ≤ re → 1 ≤ rc →
      (interleave_random shuffle ranked pool top_n re rc seed).isSome = true)
    ∧ (∀ (r1 r2 r3 r4 r5 r6 p : ℕ) (q : List ℕ) (seed : String),
      interleave_random (fun _ l => l) [r1, r2, r3, r4, r5, r6] (q ++ [p]) 3 1 1 seed
        = some [r1, p, r2]) :=
  ⟨fun _ shuffle ranked pool top_n re rc seed =>
    interleave_eq_spec shuffle ranked pool top_n re rc seed,
   fun _ shuffle ranked pool top_n re rc seed hre hrc =>
    interleave_isSome shuffle ranked pool top_n re rc seed hre hrc,
   fun r1 r2 r3 r4 r5 r6 p q seed =>
    interleave_scenario r1 r2 r3 r4 r5 r6 p q seed⟩

/-- Witness for C4: the termination part at concrete inputs with
`random_every = random_count = 1`, and the concrete interleaving scenario. -/
theorem C4_diversify_follows_spec_witness :
    (1 ≤ 1) ∧
      (interleave_random (fun _ l => l) [10, 20] [30] 2 1 1 "seed").isSome = true ∧
      interleave_random (fun _ l => l) [0, 1, 2, 3, 4, 5] ([10, 11] ++ [12]) 3 1 1 "s"
        = some [0, 12, 1] :=
  ⟨le_refl 1,
   C4_diversify_follows_spec.2.1 ℕ (fun _ l => l) [10, 20] [30] 2 1 1 "seed"
     (le_refl 1) (le_refl 1),
   C4_diversify_follows_spec.2.2 0 1 2 3 4 5 12 [10, 11] "s"⟩

/-- C5: the diversifier is deterministic — two calls with equal ranked list,
pool, `top_n`, `random_every`, `random_count` and seed key (under the same
deterministic shuffle function, which is how the code derives all of its
randomness from `random.Random(seed_key)`) return identical outputs. -/
theorem C5_diversify_deterministic :
    ∀ (α : Type) (shuffle : String → List α → List α)
      (ranked1 pool1 : List α) (tn1 re1 rc1 : ℕ) (s1 : String)
      (ranked2 pool2 : List α) (tn2 re2 rc2 : ℕ) (s2 : String),
      ranked1 = ranked2 → pool1 = pool2 → tn1 = tn2 → re1 = re2 → rc1 = rc2 →
      s1 = s2 →
      interleave_random shuffle ranked1 pool1 tn1 re1 rc1 s1
        = interleave_random shuffle ranked2 pool2 tn2 re2 rc2 s2 := by
  intro α shuffle r1 p1 t1 e1 c1 s1 r2 p2 t2 e2 c2 s2 h1 h2 h3 h4 h5 h6
  subst h1; subst h2; subst h3; subst h4; subst h5; subst h6
  rfl

/-- Witness for C5 at concrete equal inputs. -/
theorem C5_diversify_deterministic_witness :
    ([1, 2] : List ℕ) = [1, 2] ∧
      interleave_random (fun _ l => l) [1, 2] [3] 2 1 1 "k"
        = interleave_random (fun _ l => l) [1, 2] [3] 2 1 1 "k" :=
  ⟨rfl, C5_diversify_deterministic ℕ (fun _ l => l) [1, 2] [3] 2 1 1 "k"
    [1, 2] [3] 2 1 1 "k" rfl rfl rfl rfl rfl rfl⟩

/-- C10: the diversified output is not deduplicated: for any
permutation-shuffle there are inputs — here a one-event ranked list, whose
random pool per `choose_random_pool` is the ranked list itself — on which
`interleave_random` emits the same event twice. -/
theorem C10_diversify_can_duplicate :
    ∀ shuffle : String → List ℕ → List ℕ,
      (∀ (s : String) (l : List ℕ), (shuffle s l).Perm l) →
      ∃ (ranked : List ℕ) (top_n re rc : ℕ) (seed : String) (out : List ℕ),
        interleave_random shuffle ranked (choose_random_pool ranked)
            top_n re rc seed = some out
          ∧ ¬ out.Nodup := by
  intro shuffle hperm
  refine ⟨[7], 2, 1, 1, "s", [7, 7], ?_, by decide⟩
  have hpool : choose_random_pool [7] = [7] := rfl
  have hs : shuffle "s" [7] = [7] := List.perm_singleton.mp (hperm "s" [7])
  rw [interleave_random, hpool, hs]
  decide

/-- Witness for C10: the identity shuffle is a permutation-shuffle, and the
duplicate-producing input exists for it. -/
theorem C10_diversify_can_duplicate_witness :
    ∃ (ranked : List ℕ) (top_n re rc : ℕ) (seed : String) (out : List ℕ),
      interleave_random (fun _ l => l) ranked (choose_random_pool ranked)
          top_n re rc seed = some out
        ∧ ¬ out.Nodup :=
  C10_diversify_can_duplicate (fun _ l => l) (fun _ l => List.Perm.refl l)
